import Mathlib

/-!
Verification of the processional remote-execution fabric.

This file embeds, in Lean, the parts of the repository that the checked
properties talk about:

* the framed socket connection (processional/connection.py,
  SocketConnection.recv, SocketConnection.poll, SocketConnection.send,
  SocketConnection.double-underscore helpers) — byte buffers are lists of
  naturals, kernel reads are scripted as the successive results of the
  recv_into system call;
* the server registry and reception machinery (processional/host.py,
  Server.step, Server.double-underscore run, wrap, own, drop, the module
  level unwrap function, the global wrapped dictionary);
* the client side handle restoration (processional/process.py,
  RemoteObject.reduce and RemoteObject.restore).

Values living in the server process are an abstract type V equipped with
an object model: attribute lookup, item lookup, the Python id function,
and encodability of a value by the codec.
-/

namespace Processional

/-! ## Framed connection (processional/connection.py) -/

/-- Size of the reusable reception buffer, SocketConnection.max_temp. -/
def maxTemp : Nat := 4096

/-- Threshold below which header and payload are sent in one write,
SocketConnection.max_concat. -/
def maxConcat : Nat := 512

/-- Little-endian 4-byte encoding of a length, header.pack n. -/
def le32 (n : Nat) : List Nat :=
  [n % 256, n / 256 % 256, n / 65536 % 256, n / 16777216 % 256]

/-- Little-endian value of a 4-byte header, header.unpack. -/
def leVal (bs : List Nat) : Nat :=
  match bs with
  | [a, b, c, d] => a + 256 * (b + 256 * (c + 256 * d))
  | _ => 0

/-- Reception state of a SocketConnection: buf holds the bytes currently
stored at positions 0 .. buf.length - 1 of the tmp scratch buffer (so
buf.length plays the role of the pending cursor), and current is the
read cursor into it. -/
structure Conn where
  buf : List Nat
  current : Nat
  deriving Repr, DecidableEq

/-- Errors that the embedded connection operations can surface.  In the
source they are EOFError (the spec calls this kind Disconnected),
the ValueError raised by SocketConnection._read when fewer bytes are
buffered than requested, and the SerializationError wrapper around a
failing pickle.loads. -/
inductive ConnErr where
  | eof
  | noEnoughData
  | serial
  | starved
  deriving Repr, DecidableEq

/-- One scripted result of a recv_into call on the socket: none models a
BlockingIOError or socket.timeout (no data within the allowed time),
some [] models a closed socket (recv_into returned 0), some bs models
bs arriving from the kernel. -/
abbrev Chunk := Option (List Nat)

/-- Embeds SocketConnection._recv_raw with blocking = True, which is the
only way the source calls it.  First the compaction step: if the read
cursor passed half the buffer, the unread remainder is moved to the
front.  If the buffer is full, no read happens.  Otherwise one
recv_into is performed, reading at most the remaining capacity; a
BlockingIOError or timeout is swallowed, and a zero-size result raises
EOFError because blocking is true. -/
def recvRaw (c : Conn) (chunk : Chunk) : Except ConnErr Conn :=
  let c := if c.current > maxTemp / 2 then ⟨c.buf.drop c.current, 0⟩ else c
  if c.buf.length ≥ maxTemp then .ok c
  else
    match chunk with
    | none => .ok c
    | some bs =>
      let bs := bs.take (maxTemp - c.buf.length)
      if bs.length = 0 then .error .eof
      else .ok ⟨c.buf ++ bs, c.current⟩

/-- Embeds SocketConnection._read: return the next n unread bytes and
advance the cursor, raising ValueError when fewer are buffered. -/
def readBuf (c : Conn) (n : Nat) : Except ConnErr (List Nat × Conn) :=
  if c.buf.length - c.current < n then .error .noEnoughData
  else .ok ((c.buf.drop c.current).take n, ⟨c.buf, c.current + n⟩)

/-- Unread bytes currently buffered. -/
def unread (c : Conn) : List Nat := c.buf.drop c.current

/-- True when at least one fully framed message (a complete 4-byte length
header followed by that many body bytes) is buffered unread.  This is
the property the specification ascribes to poll. -/
def fullyFramedReady (c : Conn) : Bool :=
  decide (4 ≤ (unread c).length) &&
  decide (4 + leVal ((unread c).take 4) ≤ (unread c).length)

/-- Embeds SocketConnection.poll: if no unread byte is buffered, perform
one raw read (under the requested socket timeout), then report whether
any unread byte is buffered.  The chunk argument scripts that single
potential recv_into result. -/
def poll (c : Conn) (chunk : Chunk) : Except ConnErr (Conn × Bool) :=
  if c.current < c.buf.length then .ok (c, true)
  else
    match recvRaw c chunk with
    | .error e => .error e
    | .ok c₂ => .ok (c₂, decide (c₂.current < c₂.buf.length))

/-- Embeds the body-reception loop of SocketConnection.recv: repeatedly
recv_into the payload buffer until size bytes are present; a zero-size
read raises EOFError.  The script supplies the successive kernel
results; each is capped by the number of still-missing bytes, exactly
as recv_into is called with size - received. -/
def recvBody (script : List Chunk) (need : Nat) (acc : List Nat) :
    Except ConnErr (List Nat × List Chunk) :=
  match script with
  | [] => if need = 0 then .ok (acc, []) else .error .starved
  | chunk :: rest =>
    if need = 0 then .ok (acc, chunk :: rest)
    else
      match chunk with
      | none => .error .starved
      | some bs =>
        let bs := bs.take need
        if bs.length = 0 then .error .eof
        else recvBody rest (need - bs.length) (acc ++ bs)

/-- Embeds SocketConnection.recv.  If fewer than 4 header bytes are
buffered, a single raw read is attempted; then the header is consumed
(ValueError if still incomplete), the buffered part of the body is
taken, and the rest of the body is read in a loop directly into the
payload buffer.  Finally the payload is decoded; a decoding failure is
wrapped into SerializationError. -/
def recvMsg {V : Type} (decode : List Nat → Option V) (c : Conn)
    (script : List Chunk) : Except ConnErr (V × Conn × List Chunk) := do
  let (c, script) ←
    if c.buf.length - c.current < 4 then
      match script with
      | [] => Except.error ConnErr.starved
      | chunk :: rest =>
        match recvRaw c chunk with
        | .error e => Except.error e
        | .ok c₂ => Except.ok (c₂, rest)
    else Except.ok (c, script)
  let (header, c) ← readBuf c 4
  let size := leVal header
  let avail := c.buf.length - c.current
  let (start, c) ← readBuf c (min size avail)
  let (payload, script) ← recvBody script (size - start.length) start
  match decode payload with
  | some v => return (v, c, script)
  | none => .error .serial

/-- Result of SocketConnection.send: whether SerializationError was
raised, and the list of sendall calls performed (each one list of
bytes). -/
structure SendResult where
  serError : Bool
  writes : List (List Nat)
  deriving Repr, DecidableEq

/-- Embeds SocketConnection.send: the value is fully pickled first; a
failure there raises SerializationError before anything is written.
Small payloads are concatenated with their header in a single write,
large ones use two writes. -/
def send {V : Type} (encode : V → Option (List Nat)) (v : V) : SendResult :=
  match encode v with
  | none => ⟨true, []⟩
  | some data =>
    if data.length < maxConcat then ⟨false, [le32 data.length ++ data]⟩
    else ⟨false, [le32 data.length, data]⟩

/-! ## Server side (processional/host.py)

Server values are an abstract type V.  Attribute and item lookup, the
Python id function and codec encodability are supplied by an object
model.  Dictionaries keyed by integers are association lists. -/

/-- Object model of the hosting Python process: attribute lookup, item
lookup (keys of type K), the id function giving the identity of a live
object, and whether a value survives the reply codec. -/
structure ObjModel (V K : Type) where
  getattr : V → String → Option V
  getitem : V → K → Option V
  idOf : V → Nat
  encodable : V → Bool

/-- One element of a wrapped-object address after the root: in the source
a pair (kind, sub) with kind ITEM = 0 or ATTR = 1; any other kind makes
unwrap raise ValueError, embedded by the badKind constructor. -/
inductive AddrStep (K : Type) where
  | item (key : K)
  | attr (name : String)
  | badKind
  deriving Repr, DecidableEq

/-- A wrapped-object address.  On the wire it is the sequence
(ITEM, root) :: steps; the module level unwrap reads the root id as the
second component of the first element. -/
structure Address (K : Type) where
  root : Nat
  steps : List (AddrStep K)
  deriving Repr, DecidableEq

/-- Error kinds raised by the embedded server operations.  keyError is a
missing name in the environment dictionary; dillError covers
dill.loads raising (in particular when fed a str instead of pickled
bytes); dangling is the ReferenceError of unwrap on an unregistered
root; badAttr and badItem are failing getattr or item lookups;
badKindErr is the ValueError of unwrap on an unknown step kind;
serialization is a reply that the codec cannot encode; noBridge is the
ValueError raised by RemoteObject._restore in a process with no
session to the owner (the kind the spec names NoBridge). -/
inductive SrvErr where
  | keyError
  | dillError
  | dangling
  | badAttr
  | badItem
  | badKindErr
  | serialization
  | noBridge
  deriving Repr, DecidableEq

/-- Lookup in an integer-keyed association list (a Python dict). -/
def alistGet {α : Type} (l : List (Nat × α)) (k : Nat) : Option α :=
  match l with
  | [] => none
  | (k₂, v) :: t => if k₂ = k then some v else alistGet t k

/-- Assignment d[k] = v on an integer-keyed dict: replace the existing
entry or append a fresh one. -/
def alistSet {α : Type} (l : List (Nat × α)) (k : Nat) (v : α) : List (Nat × α) :=
  match l with
  | [] => [(k, v)]
  | (k₂, w) :: t => if k₂ = k then (k₂, v) :: t else (k₂, w) :: alistSet t k v

/-- Deletion d.pop(k, None) on an integer-keyed dict. -/
def alistErase {α : Type} (l : List (Nat × α)) (k : Nat) : List (Nat × α) :=
  match l with
  | [] => []
  | (k₂, w) :: t => if k₂ = k then t else (k₂, w) :: alistErase t k

/-- The global wrapped dictionary of host.py: root id to live value and
its global owning count (the count field of the Wrapped dataclass). -/
abbrev Registry (V : Type) := List (Nat × V × Int)

/-- A per-client Counter mapping root ids to this client reference count. -/
abbrev ClientCounter := List (Nat × Int)

/-- Read a Counter entry, defaulting to 0 like collections.Counter. -/
def counterGet (l : ClientCounter) (k : Nat) : Int :=
  match alistGet l k with
  | some n => n
  | none => 0

/-- Add δ to a Counter entry, creating it from the default 0 if absent
(collections.Counter increment or decrement). -/
def counterAdd (l : ClientCounter) (k : Nat) (δ : Int) : ClientCounter :=
  match l with
  | [] => [(k, δ)]
  | (k₂, n) :: t => if k₂ = k then (k₂, n + δ) :: t else (k₂, n) :: counterAdd t k δ

/-- Server state: the wrapped registry, the connected clients with their
per-client counters (Server.clients, keyed by the socket id), and the
environment dictionary Server.env of named server variables. -/
structure ServerState (V : Type) where
  wrapped : Registry V
  clients : List (Nat × ClientCounter)
  env : List (String × V)

/-- Sum over all connected clients of their counter entry for root r, the
right-hand side of the refcount invariant stated by the spec. -/
def sumClients {V : Type} (s : ServerState V) (r : Nat) : Int :=
  (s.clients.map (fun c => counterGet c.2 r)).sum

/-- Walk the tail of an address from a starting value, the loop of the
module level unwrap: ATTR steps use getattr, ITEM steps use item
lookup, any other kind raises ValueError. -/
def walk {V K : Type} (M : ObjModel V K) (v : V) :
    List (AddrStep K) → Except SrvErr V
  | [] => .ok v
  | .attr n :: rest =>
    match M.getattr v n with
    | some w => walk M w rest
    | none => .error .badAttr
  | .item k :: rest =>
    match M.getitem v k with
    | some w => walk M w rest
    | none => .error .badItem
  | .badKind :: _ => .error .badKindErr

/-- Embeds the module level unwrap of host.py: fetch the root entry of
the global wrapped dict (ReferenceError when absent), then walk the
remaining steps. -/
def serverUnwrap {V K : Type} (M : ObjModel V K) (reg : Registry V)
    (a : Address K) : Except SrvErr V :=
  match alistGet reg a.root with
  | none => .error .dangling
  | some (obj, _) => walk M obj a.steps

/-- A request payload for BLOCK, THREAD or WRAP, the three shapes accepted
by Server._run: a bare name to resolve in the environment, the tuple
(host.unwrap, address) that RemoteObject.unwrap sends, or pickled bytes
decoding to a zero-argument callable (thunk carries the value that the
callable returns, or none when decoding or the call itself raises). -/
inductive Code (V K : Type) where
  | strName (name : String)
  | unwrapCall (a : Address K)
  | thunk (result : Option V)

/-- Embeds Server._run.  The source reads:
if isinstance(code, str): result = self.env[code]
if isinstance(code, tuple): result = code[0](args) else: dill.loads ...
so a str payload first performs the environment lookup (raising
KeyError when the name is absent) and then, because a str is not a
tuple, falls into the else branch where dill.loads is applied to the
name itself and raises, discarding the looked-up result. -/
def runCode {V K : Type} (M : ObjModel V K) (reg : Registry V)
    (env : List (String × V)) : Code V K → Except SrvErr V
  | .strName n =>
    match env.lookup n with
    | none => .error .keyError
    | some _ => .error .dillError
  | .unwrapCall a => serverUnwrap M reg a
  | .thunk r =>
    match r with
    | some v => .ok v
    | none => .error .dillError

/-- A result slot value inside a reply: either a server value or the bare
root id that a WRAP reply carries. -/
inductive ReplyVal (V : Type) where
  | val (v : V)
  | root (r : Nat)
  deriving Repr, DecidableEq

/-- A framed message sent back to a client, keeping the arity of the
Python tuple: Server.step answers CLOSE with a 3-tuple while every
completed task is answered by Server._task with a 4-tuple
(tid, error, result, traceback). -/
inductive Sent (V : Type) where
  | tuple3 (tid : Nat) (err : Option SrvErr) (res : Option (ReplyVal V))
  | tuple4 (tid : Nat) (err : Option SrvErr) (res : Option (ReplyVal V))
      (report : Option String)
  deriving Repr, DecidableEq

/-- Stands for the human-readable backtrace string produced by
traceback.format_exc; its text is irrelevant to every property here. -/
def traceText : String := "traceback"

/-- Whether the reply codec accepts a result slot: root ids are plain
integers and always encode; values are ruled by the object model. -/
def replyEncodable {V K : Type} (M : ObjModel V K) : ReplyVal V → Bool
  | .val v => M.encodable v
  | .root _ => true

/-- Embeds Server._task reply formatting: a successful run answers
(tid, None, result, None); an exception answers
(tid, error, None, backtrace); if the success reply cannot be encoded,
a second reply carrying a SerializationError is sent instead. -/
def taskReply {V K : Type} (M : ObjModel V K) (tid : Nat) :
    Except SrvErr (ReplyVal V) → Sent V
  | .ok rv =>
    if replyEncodable M rv then .tuple4 tid none (some rv) none
    else .tuple4 tid (some .serialization) none (some traceText)
  | .error e => .tuple4 tid (some e) none (some traceText)

/-- Embeds Server._own: only when the root is registered, increment both
the per-client counter of the initiating client and the global count. -/
def serveOwn {V : Type} (s : ServerState V) (c r : Nat) : ServerState V :=
  match alistGet s.wrapped r with
  | none => s
  | some (v, cnt) =>
    { s with
      wrapped := alistSet s.wrapped r (v, cnt + 1)
      clients := s.clients.map fun e =>
        if e.1 = c then (e.1, counterAdd e.2 r 1) else e }

/-- Embeds Server._drop: only when the root is registered, decrement both
counters, and pop the registry entry when the global count falls to 0
or below. -/
def serveDrop {V : Type} (s : ServerState V) (c r : Nat) : ServerState V :=
  match alistGet s.wrapped r with
  | none => s
  | some (v, cnt) =>
    let clients := s.clients.map fun e =>
      if e.1 = c then (e.1, counterAdd e.2 r (-1)) else e
    if cnt - 1 ≤ 0 then
      { s with wrapped := alistErase s.wrapped r, clients := clients }
    else
      { s with wrapped := alistSet s.wrapped r (v, cnt - 1), clients := clients }

/-- Embeds Server._wrap together with the reply formatting of
Server._task: run the payload, store the result in the global wrapped
dict under its id with count 0 — overwriting any existing entry for
the same id, exactly as the assignment in the source does — then own
it on behalf of the requesting client, and reply with the root id. -/
def serveWrapOp {V K : Type} (M : ObjModel V K) (s : ServerState V)
    (c tid : Nat) (code : Code V K) : ServerState V × Sent V :=
  match runCode M s.wrapped s.env code with
  | .error e => (s, taskReply M tid (.error e))
  | .ok obj =>
    let r := M.idOf obj
    let s₁ := { s with wrapped := alistSet s.wrapped r (obj, 0) }
    let s₂ := serveOwn s₁ c r
    (s₂, taskReply M tid (.ok (.root r)))

/-- Embeds a BLOCK (or THREAD, which runs the same task body on a worker)
request: run the payload and format the reply. -/
def serveBlock {V K : Type} (M : ObjModel V K) (s : ServerState V)
    (tid : Nat) (code : Code V K) : ServerState V × Sent V :=
  (s, taskReply M tid ((runCode M s.wrapped s.env code).map .val))

/-- A request as decoded by Server.step.  PERSIST and DETACH are left out:
their handlers reference a connection attribute that Server does not
have, and no checked property concerns them. -/
inductive Request (V K : Type) where
  | close (tid : Nat)
  | block (tid : Nat) (code : Code V K)
  | threadOp (tid : Nat) (code : Code V K)
  | wrapOp (tid : Nat) (code : Code V K)
  | drop (r : Nat)
  | own (r : Nat)

/-- Embeds the dispatch of one received request inside Server.step,
performed on behalf of client c: the new state, the reply sent to that
client if any, and whether step returns (only the CLOSE branch does).
CLOSE answers with the 3-tuple (tid, None, None) that the source
builds.  DROP and OWN send nothing. -/
def stepOne {V K : Type} (M : ObjModel V K) (s : ServerState V) (c : Nat) :
    Request V K → ServerState V × Option (Sent V) × Bool
  | .close tid => (s, some (.tuple3 tid none none), true)
  | .block tid code =>
    let (s₂, rep) := serveBlock M s tid code
    (s₂, some rep, false)
  | .threadOp tid code =>
    let (s₂, rep) := serveBlock M s tid code
    (s₂, some rep, false)
  | .wrapOp tid code =>
    let (s₂, rep) := serveWrapOp M s c tid code
    (s₂, some rep, false)
  | .drop r => (serveDrop s c r, none, false)
  | .own r => (serveOwn s c r, none, false)

/-- Embeds the welcome branch of Server.loop: a fresh client record with
an empty Counter is registered. -/
def connectClient {V : Type} (s : ServerState V) (c : Nat) : ServerState V :=
  { s with clients := s.clients ++ [(c, [])] }

/-- Embeds the disconnect branch of Server.step (EOFError or
ConnectionResetError while reading): the client record is deleted and
its socket removed.  The source performs no refcount adjustment here. -/
def disconnectClient {V : Type} (s : ServerState V) (c : Nat) : ServerState V :=
  { s with clients := alistErase s.clients c }

/-- Outcome of one round of the select-driven Server.loop after step has
returned: exit the host process, return from the loop, or iterate. -/
inductive LoopOutcome where
  | continues
  | exitsProcess
  | returns
  deriving Repr, DecidableEq

/-- Embeds the termination check at the bottom of Server.loop: only with
an empty client set can the loop exit (sys.exit when attached,
return when not persistent). -/
def loopNext {V : Type} (s : ServerState V) (persistent attached : Bool) :
    LoopOutcome :=
  if s.clients.isEmpty then
    if attached then .exitsProcess
    else if !persistent then .returns
    else .continues
  else .continues

/-! ## Client side handle restoration (processional/process.py) -/

/-- The state of a decoding process that matters to
RemoteObject._restore: its own slave id (host.sid, modelled as a
natural), its global wrapped registry, and the slave ids for which a
live SlaveProcess session is registered in SlaveProcess.instances. -/
structure ProcessCtx (V K : Type) where
  sidSelf : Nat
  registry : Registry V
  instances : List Nat

/-- What decoding an encoded handle produces: the local live value in the
owning process, or a RemoteObject holding a WrappedObject with the
borrowed flag (owned = false) in a process with a session to the
owner. -/
inductive Restored (V K : Type) where
  | localValue (v : V)
  | remoteHandle (sid : Nat) (rootId : Nat) (a : Address K) (owned : Bool)

/-- Embeds RemoteObject._restore: in the owning process the address is
dereferenced through the local registry; in a process holding a
session to the owner a borrowed handle with the same address is
rebuilt around that session, its root taken from the first address
element; otherwise ValueError is raised, the failure kind the spec
names NoBridge. -/
def restore {V K : Type} (M : ObjModel V K) (P : ProcessCtx V K)
    (sid : Nat) (a : Address K) : Except SrvErr (Restored V K) :=
  if sid = P.sidSelf then (serverUnwrap M P.registry a).map .localValue
  else if P.instances.contains sid then
    .ok (.remoteHandle sid a.root a false)
  else .error .noBridge

/-! ## Concrete instances used by the closed theorems -/

/-- Object model over natural-number values: identity is the value itself,
no attributes or items, everything encodable. -/
def natModel : ObjModel Nat Nat :=
  { getattr := fun _ _ => none
    getitem := fun _ _ => none
    idOf := fun v => v
    encodable := fun _ => true }

/-- Server state reached by connecting client 1 and serving two WRAP
requests whose payloads evaluate to the same live object (id 42):
the second registry assignment overwrites the entry and resets its
count to 0 before the automatic own raises it back to 1, while the
per-client counter of client 1 keeps both references. -/
def rewrapTrace : ServerState Nat :=
  (serveWrapOp natModel
    ((serveWrapOp natModel (connectClient ⟨[], [], []⟩ 1) 1 10
        (.thunk (some 42))).1)
    1 11 (.thunk (some 42))).1

/-- Server state reached by connecting client 1, serving one WRAP request
producing the object with id 7, and then handling the disconnection of
client 1 in Server.step. -/
def disconnectTrace : ServerState Nat :=
  disconnectClient
    ((serveWrapOp natModel (connectClient ⟨[], [], []⟩ 1) 1 10
        (.thunk (some 7))).1)
    1

/-- Server state whose environment dictionary binds the name a to the
value 7, used to exercise the string payload path of Server._run. -/
def envState : ServerState Nat := ⟨[], [], [("a", 7)]⟩

/-- Server state with one connected client and nothing wrapped. -/
def oneClientState : ServerState Nat := connectClient ⟨[], [], []⟩ 1

/-- Decoding context of the owning process itself: sid 1, one registered
root 3 holding the live value 42. -/
def ctxOwner : ProcessCtx Nat Nat := ⟨1, [(3, 42, 1)], []⟩

/-- Decoding context of a third process (sid 2) holding an active session
to the owner process sid 5. -/
def ctxBridge : ProcessCtx Nat Nat := ⟨2, [], [5]⟩

/-- Decoding context of a third process (sid 2) with no session at all. -/
def ctxIsolated : ProcessCtx Nat Nat := ⟨2, [], []⟩

/-! ## Shared lemmas -/

/-- Looking up a key right after assigning it yields the assigned value. -/
theorem alistGet_alistSet_self {α : Type} (l : List (Nat × α)) (k : Nat)
    (v : α) : alistGet (alistSet l k v) k = some v := by
  induction l with
  | nil => simp [alistSet, alistGet]
  | cons hd t ih =>
    obtain ⟨k₂, w⟩ := hd
    by_cases hk : k₂ = k
    · simp [alistSet, alistGet, hk]
    · simp [alistSet, alistGet, hk, ih]

/-! ## Claim theorems -/

/-- Claim C1: for every client session and every payload whose execution
yields an encodable value v, serving the WRAP request registers v and
replies with its root id, and a subsequent BLOCK request carrying the
tuple (host.unwrap, address-of-that-root) — which is exactly what the
unwrap method of the returned handle sends — replies with the value v
itself. -/
theorem wrap_unwrap_roundtrip {V K : Type} (M : ObjModel V K)
    (s : ServerState V) (c tid₁ tid₂ : Nat) (v : V)
    (henc : M.encodable v = true) :
    (serveWrapOp M s c tid₁ (.thunk (some v))).2
      = .tuple4 tid₁ none (some (.root (M.idOf v))) none ∧
    (serveBlock M (serveWrapOp M s c tid₁ (.thunk (some v))).1 tid₂
        (.unwrapCall ⟨M.idOf v, []⟩)).2
      = .tuple4 tid₂ none (some (.val v)) none := by
  constructor
  · simp [serveWrapOp, runCode, taskReply, replyEncodable]
  · simp [serveWrapOp, runCode, serveOwn, alistGet_alistSet_self, serveBlock,
      serverUnwrap, walk, taskReply, replyEncodable, henc, Except.map]

/-- Witness for C1: wrapping the value 42 on a fresh server and unwrapping
its handle round-trips. -/
theorem wrap_unwrap_roundtrip_witness :
    (serveWrapOp natModel (⟨[], [], []⟩ : ServerState Nat) 1 10
        (.thunk (some 42))).2
      = .tuple4 10 none (some (.root 42)) none ∧
    (serveBlock natModel
        (serveWrapOp natModel (⟨[], [], []⟩ : ServerState Nat) 1 10
          (.thunk (some 42))).1 11
        (.unwrapCall ⟨42, []⟩)).2
      = .tuple4 11 none (some (.val 42)) none :=
  wrap_unwrap_roundtrip natModel ⟨[], [], []⟩ 1 10 11 42 rfl

/-- Claim C2 failing run: after one client wraps the same live object
twice, the quiescent global refcount is 1 while the sum of the
per-client counters is 2, because the registry assignment in
Server._wrap overwrites the existing entry and resets its count. -/
theorem rewrap_resets_refcount :
    alistGet rewrapTrace.wrapped 42 = some (42, 1) ∧
    sumClients rewrapTrace 42 = 2 := by
  decide

/-- Claim C3 failing run: when the reception loop handles the
disconnection of a client that owns one reference to root 7, the
client record is discarded but the global refcount of root 7 is not
decremented — it stays at 1 and the entry survives. -/
theorem disconnect_leaves_refcount :
    disconnectTrace.clients = [] ∧
    alistGet disconnectTrace.wrapped 7 = some (7, 1) := by
  decide

/-- Claim C4 failing run: a BLOCK request whose payload is the string a,
present in the environment, does not reply with the looked-up value 7:
Server._run computes the lookup but then falls through into the
dill.loads branch, which raises, so the reply carries an error and an
empty result slot. -/
theorem strName_env_lookup_bug :
    runCode natModel envState.wrapped envState.env (.strName "a")
      = .error .dillError ∧
    (serveBlock natModel envState 1 (.strName "a")).2
      = .tuple4 1 (some .dillError) none (some traceText) := by
  constructor <;> rfl

/-- Claim C5: decoding an encoded handle (sid, address) behaves by cases:
in the process whose own sid matches, it yields exactly the value the
address dereferences to in the local registry; in a process holding an
active session to sid, it yields a borrowed handle bound to that
session carrying the same address; in any other process it fails with
the NoBridge error kind. -/
theorem restore_cases {V K : Type} (M : ObjModel V K) (P : ProcessCtx V K)
    (sid : Nat) (a : Address K) (v : V) :
    (sid = P.sidSelf → serverUnwrap M P.registry a = .ok v →
      restore M P sid a = .ok (.localValue v)) ∧
    (sid ≠ P.sidSelf → P.instances.contains sid = true →
      restore M P sid a = .ok (.remoteHandle sid a.root a false)) ∧
    (sid ≠ P.sidSelf → P.instances.contains sid = false →
      restore M P sid a = .error .noBridge) := by
  refine ⟨fun h₁ h₂ => ?_, fun h₁ h₂ => ?_, fun h₁ h₂ => ?_⟩
  · simp [restore, h₁, h₂, Except.map]
  · have h₃ : sid ∈ P.instances := by simpa using h₂
    simp [restore, h₁, h₃]
  · have h₃ : sid ∉ P.instances := by simpa using h₂
    simp [restore, h₁, h₃]

/-- Witness for C5: the three cases at concrete contexts — the owning
process recovers the live value 42, a bridged process rebuilds a
borrowed handle, an unconnected process gets NoBridge. -/
theorem restore_cases_witness :
    restore natModel ctxOwner 1 ⟨3, []⟩ = .ok (.localValue 42) ∧
    restore natModel ctxBridge 5 ⟨3, []⟩
      = .ok (.remoteHandle 5 3 ⟨3, []⟩ false) ∧
    restore natModel ctxIsolated 5 ⟨3, []⟩ = .error .noBridge :=
  ⟨(restore_cases natModel ctxOwner 1 ⟨3, []⟩ 42).1 rfl rfl,
   (restore_cases natModel ctxBridge 5 ⟨3, []⟩ 42).2.1 (by decide) rfl,
   (restore_cases natModel ctxIsolated 5 ⟨3, []⟩ 42).2.2 (by decide) rfl⟩

/-- Claim C6 counterexample: with only the two bytes [5, 0] buffered — a
strict part of a length header, so no fully framed message is ready —
poll nevertheless returns true, because the source only tests whether
any unread byte is buffered. -/
theorem poll_partial_header_true :
    poll ⟨[5, 0], 0⟩ none = .ok (⟨[5, 0], 0⟩, true) ∧
    fullyFramedReady ⟨[5, 0], 0⟩ = false :=
  ⟨rfl, rfl⟩

/-- Claim C6 amended: poll returns true iff at least one unread byte is
buffered after the (at most one) read attempt; in particular a fully
framed buffered message still makes poll return true. -/
theorem poll_true_iff_unread (c c₂ : Conn) (chunk : Chunk) (b : Bool)
    (h : poll c chunk = .ok (c₂, b)) :
    (b = true ↔ c₂.current < c₂.buf.length) ∧
    (fullyFramedReady c₂ = true → b = true) := by
  have hlen : ∀ d : Conn, fullyFramedReady d = true → d.current < d.buf.length := by
    intro d hd
    unfold fullyFramedReady unread at hd
    simp only [Bool.and_eq_true, decide_eq_true_eq, List.length_drop] at hd
    omega
  unfold poll at h
  split at h
  case isTrue hlt =>
    injection h with h₁
    injection h₁ with hc hb
    subst hc
    subst hb
    exact ⟨⟨fun _ => hlt, fun _ => rfl⟩, fun _ => rfl⟩
  case isFalse hge =>
    cases hrec : recvRaw c chunk with
    | error e => rw [hrec] at h; cases h
    | ok c₃ =>
      rw [hrec] at h
      injection h with h₁
      injection h₁ with hc hb
      subst hc
      subst hb
      exact ⟨by simp, fun hf => by simpa using hlen _ hf⟩

/-- Witness for the amended C6: applying the theorem to the buffered
partial header shows the data-availability reading of the result. -/
theorem poll_true_iff_unread_witness :
    (⟨[5, 0], 0⟩ : Conn).current < (⟨[5, 0], 0⟩ : Conn).buf.length :=
  ((poll_true_iff_unread ⟨[5, 0], 0⟩ ⟨[5, 0], 0⟩ none true rfl).1).mp rfl

/-- Claim C7 failing run: with an empty buffer and the 4 header bytes
split across two kernel reads (first read delivers only [2, 0]), recv
does not keep reading — it raises the ValueError of
SocketConnection._read instead of blocking until the header is
complete, although more data follows in the stream. -/
theorem recv_header_short_read :
    recvMsg (fun _ => (none : Option Nat)) ⟨[], 0⟩ [some [2, 0], some [0, 0]]
      = .error .noEnoughData := by
  rfl

/-- Claim C8 failing run: serving CLOSE with task id 7 sends the 3-tuple
(7, None, None) — not the all-null 4-tuple — and only returns from
step; with the requesting client still connected, the loop check keeps
iterating instead of exiting. -/
theorem close_reply_and_loop :
    (stepOne natModel oneClientState 1 (.close 7)).2
      = (some (.tuple3 7 none none), true) ∧
    (Sent.tuple3 7 none none ≠ (Sent.tuple4 7 none none none : Sent Nat)) ∧
    loopNext oneClientState false true = .continues := by
  refine ⟨rfl, by decide, rfl⟩

/-- Claim C9: an OWN or DROP request whose root id is not in the wrapped
registry leaves the server state untouched, sends no reply and raises
nothing — stepOne returns the very same state with no message. -/
theorem own_drop_absent_noop {V K : Type} (M : ObjModel V K)
    (s : ServerState V) (c r : Nat) (h : alistGet s.wrapped r = none) :
    stepOne M s c (.own r) = (s, none, false) ∧
    stepOne M s c (.drop r) = (s, none, false) := by
  constructor <;> simp [stepOne, serveOwn, serveDrop, h]

/-- Witness for C9: owning or dropping the unregistered root 5 on an empty
server changes nothing. -/
theorem own_drop_absent_noop_witness :
    stepOne natModel (⟨[], [], []⟩ : ServerState Nat) 1 (.own 5)
      = (⟨[], [], []⟩, none, false) ∧
    stepOne natModel (⟨[], [], []⟩ : ServerState Nat) 1 (.drop 5)
      = (⟨[], [], []⟩, none, false) :=
  own_drop_absent_noop natModel ⟨[], [], []⟩ 1 5 rfl

/-- Claim C10: when pickling the outgoing value fails, send raises
SerializationError and performs no write at all, leaving the framing
of the stream intact. -/
theorem send_encode_failure_no_write {V : Type}
    (encode : V → Option (List Nat)) (v : V) (h : encode v = none) :
    send encode v = ⟨true, []⟩ := by
  simp [send, h]

/-- Witness for C10: a value its encoder rejects produces the error flag
and an empty write list. -/
theorem send_encode_failure_no_write_witness :
    send (fun _ : Nat => (none : Option (List Nat))) 0 = ⟨true, []⟩ :=
  send_encode_failure_no_write (fun _ => none) 0 rfl

end Processional
